import Mathlib

/-!
Shallow embedding of the SocialBotTelegram pet engine
(src/database/models.py, src/database/crud.py, src/services/pet_logic.py,
src/services/evolution.py, src/services/events.py, src/services/scheduler.py,
src/bot/handlers/commands.py, src/bot/handlers/callbacks.py, src/config.py).

Wall-clock timestamps (datetime.utcnow()) are threaded as an explicit
`now : Nat` argument; the wall-clock hour used by the night check is an
explicit `hour : Nat` argument.  Python ints are modelled as `Int`,
probabilities (floats compared exactly by the source) as `ℚ`, and the
process-wide random draws as explicit arguments.
-/

namespace SocialBot

/-- Pet evolution stages (src/database/models.py, class PetStage). -/
inductive PetStage
  | egg
  | baby
  | teen
  | adult
  | ancient
deriving DecidableEq, Repr

/-- Pet types (src/database/models.py, class PetType). -/
inductive PetType
  | normal
  | goblin
  | memeCat
  | cyberBot
  | troll
  | angel
deriving DecidableEq, Repr

/-- Audit event types (src/database/models.py, class EventType). -/
inductive EvType
  | birth
  | death
  | evolution
  | feed
  | play
  | gambleWin
  | gambleLoss
  | randomEvent
  | criticalHealth
  | nightDisturb
deriving DecidableEq, Repr

/-- One chat's pet record (src/database/models.py, class Chat). -/
structure Chat where
  chat_id : Int
  pet_name : String
  pet_stage : PetStage
  pet_type : PetType
  hunger : Int
  mood : Int
  energy : Int
  health : Int
  xp : Int
  level : Int
  is_alive : Bool
  is_sleeping : Bool
  cursing_count : Int
  meme_count : Int
  code_count : Int
  caps_count : Int
  created_at : Nat
  last_tick : Nat
  last_interaction : Option Nat
  death_at : Option Nat
deriving DecidableEq, Repr

/-- Column defaults of the Chat model (src/database/models.py, lines 40-87). -/
def newChat (chat_id : Int) (now : Nat) : Chat :=
  { chat_id := chat_id
    pet_name := "Питомец"
    pet_stage := PetStage.egg
    pet_type := PetType.normal
    hunger := 100
    mood := 100
    energy := 100
    health := 100
    xp := 0
    level := 1
    is_alive := true
    is_sleeping := false
    cursing_count := 0
    meme_count := 0
    code_count := 0
    caps_count := 0
    created_at := now
    last_tick := now
    last_interaction := none
    death_at := none }

/-- Per-chat user statistics (src/database/models.py, class User);
only the counter fields the handlers touch. -/
structure User where
  user_id : Int
  chat_id : Int
  karma_points : Int
  feed_count : Int
  play_count : Int
  message_count : Int
  night_disturb_count : Int
  gamble_wins : Int
  gamble_losses : Int
deriving DecidableEq, Repr

/-- Configuration values read by the engine (src/config.py, class Config). -/
structure Config where
  STAT_DECAY_PER_TICK : Int
  CRITICAL_HEALTH_THRESHOLD : Int
  NIGHT_START_HOUR : Nat
  NIGHT_END_HOUR : Nat
  XP_PER_FEED : Int
  XP_PER_GAME : Int
  XP_PER_MESSAGE : Int
deriving DecidableEq, Repr

/-- The default configuration values of src/config.py. -/
def defaultConfig : Config :=
  { STAT_DECAY_PER_TICK := 5
    CRITICAL_HEALTH_THRESHOLD := 10
    NIGHT_START_HOUR := 0
    NIGHT_END_HOUR := 7
    XP_PER_FEED := 5
    XP_PER_GAME := 10
    XP_PER_MESSAGE := 1 }

/-- ChatCRUD.update_stats (src/database/crud.py, lines 36-63): each passed
stat is written as max(0, min(100, value)), omitted stats are untouched,
and last_interaction is stamped. -/
def update_stats (chat : Chat) (hunger mood energy health : Option Int)
    (now : Nat) : Chat :=
  { chat with
    hunger := match hunger with
      | some v => max 0 (min 100 v)
      | none => chat.hunger
    mood := match mood with
      | some v => max 0 (min 100 v)
      | none => chat.mood
    energy := match energy with
      | some v => max 0 (min 100 v)
      | none => chat.energy
    health := match health with
      | some v => max 0 (min 100 v)
      | none => chat.health
    last_interaction := some now }

/-- ChatCRUD.add_xp (src/database/crud.py, lines 65-84).  Python's `//`
is floor division, hence Int.fdiv. -/
def add_xp (chat : Chat) (xp_amount : Int) : Chat :=
  let xp1 := chat.xp + xp_amount
  let new_level := Int.fdiv xp1 100 + 1
  if new_level > chat.level then
    { chat with xp := xp1, level := new_level }
  else
    { chat with xp := xp1 }

/-- ChatCRUD.kill_pet (src/database/crud.py, lines 86-98). -/
def kill_pet (chat : Chat) (now : Nat) : Chat :=
  { chat with is_alive := false, death_at := some now, health := 0 }

/-- ChatCRUD.revive_pet (src/database/crud.py, lines 100-124). -/
def revive_pet (chat : Chat) (now : Nat) : Chat :=
  { chat with
    is_alive := true
    death_at := none
    pet_stage := PetStage.egg
    pet_type := PetType.normal
    hunger := 100
    mood := 100
    energy := 100
    health := 100
    xp := 0
    level := 1
    cursing_count := 0
    meme_count := 0
    code_count := 0
    caps_count := 0
    created_at := now }

/-- ChatCRUD.evolve (src/database/crud.py, lines 126-142). -/
def evolve (chat : Chat) (new_stage : PetStage) (new_type : PetType) : Chat :=
  { chat with pet_stage := new_stage, pet_type := new_type }

/-- ChatCRUD.update_last_tick (src/database/crud.py, lines 162-170). -/
def update_last_tick (chat : Chat) (now : Nat) : Chat :=
  { chat with last_tick := now }

/-- UserCRUD.increment_stat (src/database/crud.py, lines 214-234): the
stat name is validated against the allow-list; an unknown name is a
silent no-op. -/
def increment_stat (user : User) (stat_name : String) (amount : Int) : User :=
  match stat_name with
  | "karma_points" => { user with karma_points := user.karma_points + amount }
  | "feed_count" => { user with feed_count := user.feed_count + amount }
  | "play_count" => { user with play_count := user.play_count + amount }
  | "message_count" => { user with message_count := user.message_count + amount }
  | "night_disturb_count" =>
      { user with night_disturb_count := user.night_disturb_count + amount }
  | "gamble_wins" => { user with gamble_wins := user.gamble_wins + amount }
  | "gamble_losses" => { user with gamble_losses := user.gamble_losses + amount }
  | _ => user

/-! ## Pet logic (src/services/pet_logic.py) -/

/-- Result of PetLogic.tick_stats: the persisted chat, the Python return
pair (is_alive, is_critical), and the audit events emitted. -/
structure TickResult where
  chat : Chat
  is_alive : Bool
  is_critical : Bool
  events : List EvType
deriving DecidableEq, Repr

/-- The health penalty derived from the decayed stats
(src/services/pet_logic.py, lines 31-39): +10 if the new hunger is
below 20, +5 if the new mood is below 20, +5 if the new energy is
below 20; the three penalties are additive and independent. -/
def health_penalty (cfg : Config) (chat : Chat) : Int :=
  (if max 0 (chat.hunger - cfg.STAT_DECAY_PER_TICK) < 20 then (10 : Int) else 0)
  + (if max 0 (chat.mood - cfg.STAT_DECAY_PER_TICK) < 20 then 5 else 0)
  + (if max 0 (chat.energy - cfg.STAT_DECAY_PER_TICK) < 20 then 5 else 0)

/-- PetLogic.tick_stats (src/services/pet_logic.py, lines 14-75). -/
def tick_stats (cfg : Config) (chat : Chat) (now : Nat) : TickResult :=
  if chat.is_alive = false then ⟨chat, false, false, []⟩
  else
    let decay := cfg.STAT_DECAY_PER_TICK
    let new_hunger := max 0 (chat.hunger - decay)
    let new_mood := max 0 (chat.mood - decay)
    let new_energy := max 0 (chat.energy - decay)
    let new_health := max 0 (chat.health - health_penalty cfg chat)
    let chat1 := update_stats chat (some new_hunger) (some new_mood)
      (some new_energy) (some new_health) now
    if new_health ≤ 0 then
      ⟨kill_pet chat1 now, false, true, [EvType.death]⟩
    else
      let is_critical := decide (new_health < cfg.CRITICAL_HEALTH_THRESHOLD)
      ⟨update_last_tick chat1 now, true, is_critical,
        if is_critical then [EvType.criticalHealth] else []⟩

/-- Result of a PetLogic user action (the Python result dict). -/
structure ActionResult where
  success : Bool
  message : String
  chat : Chat
  events : List EvType
deriving DecidableEq, Repr

/-- PetLogic.feed (src/services/pet_logic.py, lines 77-127). -/
def feed (cfg : Config) (chat : Chat) (now : Nat) : ActionResult :=
  if chat.is_alive = false then ⟨false, "Питомец мертв 💀", chat, []⟩
  else if chat.is_sleeping then
    ⟨false, chat.pet_name ++ " спит. Не буди его 😴", chat, []⟩
  else
    let new_hunger := min 100 (chat.hunger + 30)
    let new_mood := min 100 (chat.mood + 5)
    let chat1 := update_stats chat (some new_hunger) (some new_mood) none none now
    let chat2 := add_xp chat1 cfg.XP_PER_FEED
    ⟨true, "покормил питомца", chat2, [EvType.feed]⟩

/-- PetLogic.play (src/services/pet_logic.py, lines 129-187). -/
def play (cfg : Config) (chat : Chat) (now : Nat) : ActionResult :=
  if chat.is_alive = false then ⟨false, "Питомец мертв 💀", chat, []⟩
  else if chat.is_sleeping then
    ⟨false, chat.pet_name ++ " спит. Не буди его 😴", chat, []⟩
  else if chat.energy < 20 then
    ⟨false, chat.pet_name ++ " слишком устал для игр.", chat, []⟩
  else
    let new_mood := min 100 (chat.mood + 20)
    let new_energy := max 0 (chat.energy - 10)
    let new_hunger := max 0 (chat.hunger - 5)
    let chat1 := update_stats chat (some new_hunger) (some new_mood)
      (some new_energy) none now
    let chat2 := add_xp chat1 cfg.XP_PER_GAME
    ⟨true, "поиграл с питомцем", chat2, [EvType.play]⟩

/-- PetLogic.is_night_time (src/services/pet_logic.py, lines 189-201),
with the wall-clock hour passed explicitly. -/
def is_night_time (cfg : Config) (current_hour : Nat) : Bool :=
  if cfg.NIGHT_START_HOUR < cfg.NIGHT_END_HOUR then
    decide (cfg.NIGHT_START_HOUR ≤ current_hour
      ∧ current_hour < cfg.NIGHT_END_HOUR)
  else
    decide (current_hour ≥ cfg.NIGHT_START_HOUR
      ∨ current_hour < cfg.NIGHT_END_HOUR)

/-- PetLogic.check_sleep_status (src/services/pet_logic.py, lines 203-217). -/
def check_sleep_status (cfg : Config) (chat : Chat) (hour now : Nat) : Chat :=
  let is_night := is_night_time cfg hour
  if is_night = true ∧ chat.is_sleeping = false then
    { chat with is_sleeping := true }
  else if is_night = false ∧ chat.is_sleeping = true then
    let chat1 := { chat with is_sleeping := false }
    update_stats chat1 none none (some (min 100 (chat.energy + 50))) none now
  else
    chat

/-- Result of PetLogic.disturb_at_night (the Python result dict). -/
structure DisturbResult where
  disturbed : Bool
  chat : Chat
  events : List EvType
deriving DecidableEq, Repr

/-- PetLogic.disturb_at_night (src/services/pet_logic.py, lines 219-261).
Note: it updates health and mood through update_stats but never calls
ChatCRUD.kill_pet, so is_alive and death_at are untouched. -/
def disturb_at_night (chat : Chat) (now : Nat) : DisturbResult :=
  if chat.is_sleeping = false then ⟨false, chat, []⟩
  else
    let new_health := max 0 (chat.health - 15)
    let new_mood := max 0 (chat.mood - 20)
    let chat1 := update_stats chat none (some new_mood) none (some new_health) now
    ⟨true, chat1, [EvType.nightDisturb]⟩

/-! ## Evolution (src/services/evolution.py) -/

/-- EvolutionSystem.STAGE_THRESHOLDS (src/services/evolution.py, lines 12-18). -/
def STAGE_THRESHOLDS : PetStage → Int
  | PetStage.egg => 0
  | PetStage.baby => 100
  | PetStage.teen => 500
  | PetStage.adult => 1500
  | PetStage.ancient => 5000

/-- EvolutionSystem.get_next_stage (src/services/evolution.py, lines 29-47). -/
def get_next_stage : PetStage → Option PetStage
  | PetStage.egg => some PetStage.baby
  | PetStage.baby => some PetStage.teen
  | PetStage.teen => some PetStage.adult
  | PetStage.adult => some PetStage.ancient
  | PetStage.ancient => none

/-- EvolutionSystem.determine_pet_type (src/services/evolution.py,
lines 49-86): first matching rule wins. -/
def determine_pet_type (chat : Chat) : PetType :=
  let total_interactions :=
    chat.cursing_count + chat.meme_count + chat.code_count + chat.caps_count
  if chat.cursing_count = 0 ∧ total_interactions ≥ 200 then PetType.angel
  else if chat.code_count ≥ 50 then PetType.cyberBot
  else if chat.meme_count ≥ 50 then PetType.memeCat
  else if chat.caps_count ≥ 100 ∧ chat.cursing_count ≥ 30 then PetType.troll
  else if chat.cursing_count ≥ 50 then PetType.goblin
  else PetType.normal

/-- Result of EvolutionSystem.check_and_evolve: the Python return triple
plus the persisted chat and emitted events. -/
structure EvolveResult where
  evolved : Bool
  new_stage : Option PetStage
  new_type : Option PetType
  chat : Chat
  events : List EvType
deriving DecidableEq, Repr

/-- EvolutionSystem.check_and_evolve (src/services/evolution.py,
lines 88-138). -/
def check_and_evolve (chat : Chat) : EvolveResult :=
  if chat.is_alive = false then ⟨false, none, none, chat, []⟩
  else
    match get_next_stage chat.pet_stage with
    | none => ⟨false, none, none, chat, []⟩
    | some next_stage =>
      let required_xp := STAGE_THRESHOLDS next_stage
      if chat.xp < required_xp then ⟨false, none, none, chat, []⟩
      else
        let new_type :=
          if next_stage = PetStage.teen then determine_pet_type chat
          else chat.pet_type
        let chat1 := evolve chat next_stage new_type
        ⟨true, some next_stage, some new_type, chat1, [EvType.evolution]⟩

/-! ## Random events (src/services/events.py) -/

/-- The three registered random event kinds (src/services/events.py,
classes FindBoxEvent, VisitorEvent, WeatherEvent). -/
inductive EventKind
  | box
  | visitor
  | weather
deriving DecidableEq, Repr

/-- The per-kind trigger probability passed to RandomEvent.__init__
(box 0.2, visitor 0.15, weather 0.25). -/
def event_probability : EventKind → ℚ
  | EventKind.box => 1 / 5
  | EventKind.visitor => 3 / 20
  | EventKind.weather => 1 / 4

/-- FindBoxEvent.execute (src/services/events.py, lines 32-83):
random.choice among 5 outcomes, indexed here in source order. -/
def box_execute (chat : Chat) (outcome : Fin 5) (now : Nat) : Chat :=
  if outcome.val = 0 then
    update_stats chat (some (min 100 (chat.hunger + 50))) none none none now
  else if outcome.val = 1 then
    update_stats chat none none (some (min 100 (chat.energy + 30))) none now
  else if outcome.val = 2 then
    update_stats chat none (some (min 100 (chat.mood + 40))) none none now
  else if outcome.val = 3 then
    update_stats chat none none none (some (max 0 (chat.health - 20))) now
  else
    add_xp chat 50

/-- VisitorEvent.execute (src/services/events.py, lines 96-142):
random.choice among 3 visitors, indexed here in source order. -/
def visitor_execute (chat : Chat) (outcome : Fin 3) (now : Nat) : Chat :=
  if outcome.val = 0 then
    update_stats chat (some 100) (some 100) (some 100) (some 100) now
  else if outcome.val = 1 then
    update_stats chat (some (max 0 (chat.hunger - 30))) none none none now
  else
    update_stats chat none (some (min 100 (chat.mood + 50))) none none now

/-- WeatherEvent.execute (src/services/events.py, lines 155-202):
random.choice among 4 weathers, indexed here in source order. -/
def weather_execute (chat : Chat) (outcome : Fin 4) (now : Nat) : Chat :=
  if outcome.val = 0 then
    update_stats chat none (some (min 100 (chat.mood + 20))) none none now
  else if outcome.val = 1 then
    update_stats chat none (some (max 0 (chat.mood - 10))) none none now
  else if outcome.val = 2 then
    update_stats chat none (some (max 0 (chat.mood - 20)))
      (some (max 0 (chat.energy - 15))) none now
  else
    update_stats chat none (some (min 100 (chat.mood + 15))) none none now

/-- The uniform draws consumed by one EventManager.trigger_random_event
call: two random.random() draws in [0,1) and the random.choice indices. -/
structure Rng where
  draw1 : ℚ
  choice : Fin 3
  draw2 : ℚ
  box_outcome : Fin 5
  visitor_outcome : Fin 3
  weather_outcome : Fin 4
deriving DecidableEq, Repr

/-- random.choice(self.events) over EventManager.events =
[FindBoxEvent(), VisitorEvent(), WeatherEvent()]
(src/services/events.py, lines 208-213, 232). -/
def chosen_event : Fin 3 → EventKind
  | ⟨0, _⟩ => EventKind.box
  | ⟨1, _⟩ => EventKind.visitor
  | ⟨_ + 2, _⟩ => EventKind.weather

/-- EventManager.trigger_random_event (src/services/events.py,
lines 215-240).  The source gates are `random.random() > 0.3` and
`random.random() > event.probability`, each returning None. -/
def trigger_random_event (chat : Chat) (rng : Rng) (now : Nat) :
    Option EventKind × Chat :=
  if chat.is_alive = false ∨ chat.is_sleeping = true then (none, chat)
  else if rng.draw1 > 3 / 10 then (none, chat)
  else
    let event := chosen_event rng.choice
    if rng.draw2 > event_probability event then (none, chat)
    else
      match event with
      | EventKind.box => (some EventKind.box, box_execute chat rng.box_outcome now)
      | EventKind.visitor =>
          (some EventKind.visitor, visitor_execute chat rng.visitor_outcome now)
      | EventKind.weather =>
          (some EventKind.weather, weather_execute chat rng.weather_outcome now)

/-! ## Command and callback handlers (src/bot/handlers) -/

/-- How a feed/play command run ended: intercepted as a night
disturbance, or the underlying action ran with the given success flag. -/
inductive HandlerOutcome
  | disturbed
  | acted (success : Bool)
deriving DecidableEq, Repr

/-- Overall result of one feed/play command handler run. -/
structure HandlerResult where
  chat : Chat
  user : User
  events : List EvType
  outcome : HandlerOutcome
deriving DecidableEq, Repr

/-- The non-disturbance tail of cmd_feed (src/bot/handlers/commands.py,
lines 107-132): run PetLogic.feed, then on success bump the actor's
feed_count and karma_points(+5). -/
def cmd_feed_action (cfg : Config) (chat : Chat) (user : User) (now : Nat) :
    HandlerResult :=
  let r := feed cfg chat now
  if r.success then
    ⟨r.chat,
      increment_stat (increment_stat user "feed_count" 1) "karma_points" 5,
      r.events, HandlerOutcome.acted true⟩
  else
    ⟨r.chat, user, r.events, HandlerOutcome.acted false⟩

/-- cmd_feed (src/bot/handlers/commands.py, lines 75-132): if the pet is
sleeping, the attempt is routed to PetLogic.disturb_at_night and the
actor's night_disturb_count is bumped; otherwise PetLogic.feed runs. -/
def cmd_feed (cfg : Config) (chat : Chat) (user : User) (now : Nat) :
    HandlerResult :=
  if chat.is_sleeping then
    let d := disturb_at_night chat now
    if d.disturbed then
      ⟨d.chat, increment_stat user "night_disturb_count" 1, d.events,
        HandlerOutcome.disturbed⟩
    else
      cmd_feed_action cfg chat user now
  else
    cmd_feed_action cfg chat user now

/-- The non-disturbance tail of cmd_play (src/bot/handlers/commands.py,
lines 167-192): run PetLogic.play, then on success bump the actor's
play_count and karma_points(+3). -/
def cmd_play_action (cfg : Config) (chat : Chat) (user : User) (now : Nat) :
    HandlerResult :=
  let r := play cfg chat now
  if r.success then
    ⟨r.chat,
      increment_stat (increment_stat user "play_count" 1) "karma_points" 3,
      r.events, HandlerOutcome.acted true⟩
  else
    ⟨r.chat, user, r.events, HandlerOutcome.acted false⟩

/-- cmd_play (src/bot/handlers/commands.py, lines 135-192). -/
def cmd_play (cfg : Config) (chat : Chat) (user : User) (now : Nat) :
    HandlerResult :=
  if chat.is_sleeping then
    let d := disturb_at_night chat now
    if d.disturbed then
      ⟨d.chat, increment_stat user "night_disturb_count" 1, d.events,
        HandlerOutcome.disturbed⟩
    else
      cmd_play_action cfg chat user now
  else
    cmd_play_action cfg chat user now

/-- The reply cmd_gamble sends (src/bot/handlers/commands.py,
lines 195-227): dead notice, too-hungry notice, or the gamble offer.
cmd_gamble performs no sleeping check and changes no state. -/
inductive GambleReply
  | deadReply
  | hungryReply
  | offer
deriving DecidableEq, Repr

/-- cmd_gamble (src/bot/handlers/commands.py, lines 195-227). -/
def cmd_gamble (chat : Chat) : GambleReply :=
  if chat.is_alive = false then GambleReply.deadReply
  else if chat.hunger < 30 then GambleReply.hungryReply
  else GambleReply.offer

/-- Result of the gamble button callback. -/
structure GambleResult where
  chat : Chat
  user : User
  events : List EvType
deriving DecidableEq, Repr

/-- callback_gamble_play (src/bot/handlers/callbacks.py, lines 13-96),
with the coin flip passed explicitly.  There is no sleeping check. -/
def callback_gamble_play (chat : Chat) (user : User) (won : Bool)
    (now : Nat) : GambleResult :=
  if chat.is_alive = false then ⟨chat, user, []⟩
  else if won then
    let new_hunger := min 100 (chat.hunger + 50)
    let chat1 := update_stats chat (some new_hunger) none none none now
    ⟨chat1,
      increment_stat (increment_stat user "gamble_wins" 1) "karma_points" 10,
      [EvType.gambleWin]⟩
  else
    let new_hunger := max 0 (chat.hunger - 30)
    let chat1 := update_stats chat (some new_hunger) none none none now
    ⟨chat1,
      increment_stat (increment_stat user "gamble_losses" 1) "karma_points" (-5),
      [EvType.gambleLoss]⟩

/-! ## Scheduler tick pass, per chat (src/services/scheduler.py) -/

/-- Per-chat outcome of one BotScheduler.tick_all_pets loop body. -/
structure TickPassResult where
  chat : Chat
  is_alive : Bool
  is_critical : Bool
  evolved : Bool
deriving DecidableEq, Repr

/-- The loop body of BotScheduler.tick_all_pets for one chat
(src/services/scheduler.py, lines 40-91): sleep check, then decay tick,
then — only if the pet survived — the evolution check. -/
def tick_one_pet (cfg : Config) (chat : Chat) (hour now : Nat) :
    TickPassResult :=
  let chat0 := check_sleep_status cfg chat hour now
  let r := tick_stats cfg chat0 now
  if r.is_alive then
    let e := check_and_evolve r.chat
    ⟨e.chat, true, r.is_critical, e.evolved⟩
  else
    ⟨r.chat, false, r.is_critical, false⟩

/-! ## Theorems -/

/-- A Config whose night window is [s, e), all other values default
(the night hours are env-configurable in src/config.py). -/
def mkNightConfig (s e : Nat) : Config :=
  { defaultConfig with NIGHT_START_HOUR := s, NIGHT_END_HOUR := e }

/-- Claim C8: is_night_time implements the window [nightStart, nightEnd)
with wraparound when nightStart > nightEnd: with start 22 and end 6,
hours 23 and 2 are night and hour 12 is not; when nightStart < nightEnd,
hour h is night iff nightStart ≤ h < nightEnd; when nightStart > nightEnd,
hour h is night iff h ≥ nightStart or h < nightEnd. -/
theorem is_night_time_window (s e h : Nat) :
    (is_night_time (mkNightConfig 22 6) 23 = true
      ∧ is_night_time (mkNightConfig 22 6) 2 = true
      ∧ is_night_time (mkNightConfig 22 6) 12 = false)
    ∧ (s < e → (is_night_time (mkNightConfig s e) h = true ↔ s ≤ h ∧ h < e))
    ∧ (e < s → (is_night_time (mkNightConfig s e) h = true ↔ h ≥ s ∨ h < e)) := by
  refine ⟨by decide, ?_, ?_⟩
  · intro hse
    simp [is_night_time, mkNightConfig, hse]
  · intro hes
    have hns : ¬(s < e) := by omega
    simp [is_night_time, mkNightConfig, hns]

/-- Claim C8 witness: the wraparound branch instantiated at
nightStart = 22, nightEnd = 6, hour 23. -/
theorem is_night_time_window_witness :
    is_night_time (mkNightConfig 22 6) 23 = true ↔ 23 ≥ 22 ∨ 23 < 6 :=
  (is_night_time_window 22 6 23).2.2 (by decide)

/-- Claim C10: when the configured night start hour equals the night end
hour, is_night_time returns true for every hour: the `else` branch of
PetLogic.is_night_time tests `hour ≥ start or hour < end`, which is a
tautology when start = end. -/
theorem is_night_time_equal_bounds (s h : Nat) :
    is_night_time (mkNightConfig s s) h = true := by
  have hns : ¬(s < s) := by omega
  simp [is_night_time, mkNightConfig, hns]
  omega

/-- Claim C3: every write through ChatCRUD.update_stats leaves all four
vitals in [0,100] (each written stat is clamped, untouched stats keep
their in-range prior values), and an update passing no vital leaves all
four vitals at their prior values. -/
theorem update_stats_clamped (chat : Chat) (h m e hp : Option Int) (now : Nat)
    (hh : 0 ≤ chat.hunger ∧ chat.hunger ≤ 100)
    (hm : 0 ≤ chat.mood ∧ chat.mood ≤ 100)
    (he : 0 ≤ chat.energy ∧ chat.energy ≤ 100)
    (hl : 0 ≤ chat.health ∧ chat.health ≤ 100) :
    (0 ≤ (update_stats chat h m e hp now).hunger
      ∧ (update_stats chat h m e hp now).hunger ≤ 100
      ∧ 0 ≤ (update_stats chat h m e hp now).mood
      ∧ (update_stats chat h m e hp now).mood ≤ 100
      ∧ 0 ≤ (update_stats chat h m e hp now).energy
      ∧ (update_stats chat h m e hp now).energy ≤ 100
      ∧ 0 ≤ (update_stats chat h m e hp now).health
      ∧ (update_stats chat h m e hp now).health ≤ 100)
    ∧ ((update_stats chat none none none none now).hunger = chat.hunger
      ∧ (update_stats chat none none none none now).mood = chat.mood
      ∧ (update_stats chat none none none none now).energy = chat.energy
      ∧ (update_stats chat none none none none now).health = chat.health) := by
  constructor
  · refine ⟨?_, ?_, ?_, ?_, ?_, ?_, ?_, ?_⟩ <;>
      [cases h; cases h; cases m; cases m; cases e; cases e; cases hp; cases hp] <;>
      simp [update_stats] <;> omega
  · simp [update_stats]

/-- Claim C3 witness: update_stats at a fresh pet with an overshooting
hunger write and a negative mood write keeps all vitals in [0,100]. -/
theorem update_stats_clamped_witness :
    0 ≤ (update_stats (newChat 1 0) (some 150) (some (-7)) none none 5).hunger
      ∧ (update_stats (newChat 1 0) (some 150) (some (-7)) none none 5).hunger ≤ 100
      ∧ 0 ≤ (update_stats (newChat 1 0) (some 150) (some (-7)) none none 5).mood
      ∧ (update_stats (newChat 1 0) (some 150) (some (-7)) none none 5).mood ≤ 100
      ∧ 0 ≤ (update_stats (newChat 1 0) (some 150) (some (-7)) none none 5).energy
      ∧ (update_stats (newChat 1 0) (some 150) (some (-7)) none none 5).energy ≤ 100
      ∧ 0 ≤ (update_stats (newChat 1 0) (some 150) (some (-7)) none none 5).health
      ∧ (update_stats (newChat 1 0) (some 150) (some (-7)) none none 5).health ≤ 100 :=
  (update_stats_clamped (newChat 1 0) (some 150) (some (-7)) none none 5
    (by decide) (by decide) (by decide) (by decide)).1

/-- The testable-properties instance of the spec for determineType:
cursing_count = 0, meme_count = 60, code_count = 60, caps_count = 0
(total interactions 120). -/
def specInstanceChat : Chat :=
  { newChat 3 0 with meme_count := 60, code_count := 60 }

/-- Claim C5 counterexample: on the spec's instance cursing = 0,
meme = 60, code = 60, caps = 0, the counter total is 120 < 200, so the
ANGEL rule does not match and determine_pet_type returns CYBER_BOT,
not ANGEL. -/
theorem determine_pet_type_spec_instance :
    determine_pet_type specInstanceChat = PetType.cyberBot
    ∧ PetType.cyberBot ≠ PetType.angel
    ∧ specInstanceChat.cursing_count + specInstanceChat.meme_count
      + specInstanceChat.code_count + specInstanceChat.caps_count = 120 := by
  decide

/-- Claim C5 (amended): determine_pet_type checks its rules in the order
ANGEL, CYBER_BOT, MEME_CAT, TROLL, GOBLIN, NORMAL with the first match
winning: every pet with cursing_count = 0 and counter total ≥ 200 is
ANGEL even if code_count ≥ 50 or meme_count ≥ 50.  The spec's instance
(cursing 0, meme 60, code 60, caps 0) has total 120 < 200 and yields
CYBER_BOT; raising caps_count to 80 makes the total 200 and yields ANGEL. -/
theorem determine_pet_type_priority (chat : Chat)
    (hc : chat.cursing_count = 0)
    (ht : chat.cursing_count + chat.meme_count + chat.code_count
      + chat.caps_count ≥ 200) :
    determine_pet_type chat = PetType.angel
    ∧ determine_pet_type { specInstanceChat with caps_count := 80 }
      = PetType.angel := by
  constructor
  · unfold determine_pet_type
    rw [if_pos ⟨hc, ht⟩]
  · decide

/-- Claim C5 witness: a pet with cursing 0, meme 60, code 60, caps 80
(total 200, and both code_count ≥ 50 and meme_count ≥ 50) is ANGEL. -/
theorem determine_pet_type_priority_witness :
    determine_pet_type { specInstanceChat with caps_count := 80 }
      = PetType.angel :=
  (determine_pet_type_priority { specInstanceChat with caps_count := 80 }
    (by decide) (by decide)).1

/-- increment_stat resolves the allow-listed name "night_disturb_count". -/
@[simp]
theorem increment_stat_nd (user : User) (amount : Int) :
    increment_stat user "night_disturb_count" amount
      = { user with night_disturb_count := user.night_disturb_count + amount } :=
  rfl

/-- increment_stat resolves the allow-listed name "feed_count". -/
@[simp]
theorem increment_stat_feed (user : User) (amount : Int) :
    increment_stat user "feed_count" amount
      = { user with feed_count := user.feed_count + amount } :=
  rfl

/-- increment_stat resolves the allow-listed name "play_count". -/
@[simp]
theorem increment_stat_play (user : User) (amount : Int) :
    increment_stat user "play_count" amount
      = { user with play_count := user.play_count + amount } :=
  rfl

/-- increment_stat resolves the allow-listed name "karma_points". -/
@[simp]
theorem increment_stat_karma (user : User) (amount : Int) :
    increment_stat user "karma_points" amount
      = { user with karma_points := user.karma_points + amount } :=
  rfl

/-- increment_stat resolves the allow-listed name "gamble_wins". -/
@[simp]
theorem increment_stat_wins (user : User) (amount : Int) :
    increment_stat user "gamble_wins" amount
      = { user with gamble_wins := user.gamble_wins + amount } :=
  rfl

/-- increment_stat resolves the allow-listed name "gamble_losses". -/
@[simp]
theorem increment_stat_losses (user : User) (amount : Int) :
    increment_stat user "gamble_losses" amount
      = { user with gamble_losses := user.gamble_losses + amount } :=
  rfl

/-- The health penalty of one tick is between 0 and 20. -/
theorem health_penalty_bounds (cfg : Config) (chat : Chat) :
    0 ≤ health_penalty cfg chat ∧ health_penalty cfg chat ≤ 20 := by
  unfold health_penalty
  split_ifs <;> omega

/-- Claim C6: check_and_evolve is a no-op (returns (false, none, none)
and leaves the pet unchanged) when the pet is dead, when the stage is
ANCIENT, or when xp is strictly below the next stage's threshold; when
xp reaches the threshold it advances exactly one stage, computing the
type via determine_pet_type only at the TEEN transition and keeping the
stored type at every other transition. -/
theorem check_and_evolve_thresholds (chat : Chat) :
    (chat.is_alive = false →
      check_and_evolve chat = ⟨false, none, none, chat, []⟩)
    ∧ (chat.pet_stage = PetStage.ancient →
      check_and_evolve chat = ⟨false, none, none, chat, []⟩)
    ∧ (∀ ns : PetStage, chat.is_alive = true →
        get_next_stage chat.pet_stage = some ns →
        (chat.xp < STAGE_THRESHOLDS ns →
          check_and_evolve chat = ⟨false, none, none, chat, []⟩)
        ∧ (STAGE_THRESHOLDS ns ≤ chat.xp →
          (check_and_evolve chat).evolved = true
          ∧ (check_and_evolve chat).new_stage = some ns
          ∧ (check_and_evolve chat).chat.pet_stage = ns
          ∧ (check_and_evolve chat).chat.xp = chat.xp
          ∧ (ns = PetStage.teen →
              (check_and_evolve chat).chat.pet_type = determine_pet_type chat)
          ∧ (ns ≠ PetStage.teen →
              (check_and_evolve chat).chat.pet_type = chat.pet_type))) := by
  refine ⟨?_, ?_, ?_⟩
  · intro h
    simp [check_and_evolve, h]
  · intro h
    by_cases ha : chat.is_alive = false
    · simp [check_and_evolve, ha]
    · simp [check_and_evolve, ha, h, get_next_stage]
  · intro ns halive hns
    have ha : ¬(chat.is_alive = false) := by simp [halive]
    constructor
    · intro hxp
      simp [check_and_evolve, ha, hns, hxp]
    · intro hxp
      have hnot : ¬(chat.xp < STAGE_THRESHOLDS ns) := by omega
      simp only [check_and_evolve, if_neg ha, hns, if_neg hnot, evolve]
      refine ⟨trivial, trivial, trivial, trivial, ?_, ?_⟩
      · intro hteen
        simp [hteen]
      · intro hteen
        simp [hteen]

/-- Claim C6 witness: a fresh pet with xp exactly 100 (the BABY
threshold) evolves. -/
theorem check_and_evolve_thresholds_witness :
    (check_and_evolve { newChat 5 0 with xp := 100 }).evolved = true :=
  (((check_and_evolve_thresholds { newChat 5 0 with xp := 100 }).2.2
    PetStage.baby (by decide) (by decide)).2 (by decide)).1

/-- A dead pet record, as left behind by kill_pet. -/
def deadChat : Chat :=
  { newChat 9 0 with is_alive := false, health := 0, death_at := some 0 }

/-- A user record with all counters zero. -/
def actorUser : User :=
  { user_id := 7
    chat_id := 9
    karma_points := 0
    feed_count := 0
    play_count := 0
    message_count := 0
    night_disturb_count := 0
    gamble_wins := 0
    gamble_losses := 0 }

/-- Claim C9: on a dead pet, feed and play return a structured failure
with the "pet is dead" message and the unchanged pet, cmd_gamble replies
with the dead notice and changes nothing, and the gamble callback
returns without touching pet or user; revive_pet resets the pet to its
birth defaults (all vitals 100, xp 0, level 1, stage EGG, type NORMAL,
all behavior counters 0, alive, death_at cleared). -/
theorem dead_rejections_and_revive (cfg : Config) (chat : Chat) (user : User)
    (now : Nat) (won : Bool) (hdead : chat.is_alive = false) :
    feed cfg chat now = ⟨false, "Питомец мертв 💀", chat, []⟩
    ∧ play cfg chat now = ⟨false, "Питомец мертв 💀", chat, []⟩
    ∧ cmd_gamble chat = GambleReply.deadReply
    ∧ callback_gamble_play chat user won now = ⟨chat, user, []⟩
    ∧ ((revive_pet chat now).hunger = 100
      ∧ (revive_pet chat now).mood = 100
      ∧ (revive_pet chat now).energy = 100
      ∧ (revive_pet chat now).health = 100
      ∧ (revive_pet chat now).xp = 0
      ∧ (revive_pet chat now).level = 1
      ∧ (revive_pet chat now).pet_stage = PetStage.egg
      ∧ (revive_pet chat now).pet_type = PetType.normal
      ∧ (revive_pet chat now).cursing_count = 0
      ∧ (revive_pet chat now).meme_count = 0
      ∧ (revive_pet chat now).code_count = 0
      ∧ (revive_pet chat now).caps_count = 0
      ∧ (revive_pet chat now).is_alive = true
      ∧ (revive_pet chat now).death_at = none) := by
  refine ⟨?_, ?_, ?_, ?_, ?_⟩
  · simp [feed, hdead]
  · simp [play, hdead]
  · simp [cmd_gamble, hdead]
  · simp [callback_gamble_play, hdead]
  · simp [revive_pet]

/-- Claim C9 witness: feeding the dead pet fails with the dead message
and leaves the record unchanged. -/
theorem dead_rejections_and_revive_witness :
    feed defaultConfig deadChat 1 = ⟨false, "Питомец мертв 💀", deadChat, []⟩ :=
  (dead_rejections_and_revive defaultConfig deadChat actorUser 1 true
    (by decide)).1

/-- Claim C4: one tick on an alive pet decays hunger, mood and energy by
the configured amount (clamped at 0), subtracts the additive health
penalty (+10 / +5 / +5 for new hunger / mood / energy below 20) from
health (clamped at 0); if the resulting health is ≤ 0 the pet is marked
dead with death_at stamped, and the scheduler pass runs no evolution
check for a pet whose tick left it dead.  A fresh pet ends one default
tick at hunger 95, mood 95, energy 95, health 100, alive and not
critical. -/
theorem tick_stats_decay (cfg : Config) (chat : Chat) (hour now : Nat)
    (halive : chat.is_alive = true)
    (hdec : 0 ≤ cfg.STAT_DECAY_PER_TICK)
    (hh : 0 ≤ chat.hunger ∧ chat.hunger ≤ 100)
    (hm : 0 ≤ chat.mood ∧ chat.mood ≤ 100)
    (he : 0 ≤ chat.energy ∧ chat.energy ≤ 100)
    (hl : 0 ≤ chat.health ∧ chat.health ≤ 100) :
    ((tick_stats cfg chat now).chat.hunger
        = max 0 (chat.hunger - cfg.STAT_DECAY_PER_TICK)
      ∧ (tick_stats cfg chat now).chat.mood
        = max 0 (chat.mood - cfg.STAT_DECAY_PER_TICK)
      ∧ (tick_stats cfg chat now).chat.energy
        = max 0 (chat.energy - cfg.STAT_DECAY_PER_TICK)
      ∧ (tick_stats cfg chat now).chat.health
        = max 0 (chat.health - health_penalty cfg chat))
    ∧ (max 0 (chat.health - health_penalty cfg chat) ≤ 0 →
        (tick_stats cfg chat now).chat.is_alive = false
        ∧ (tick_stats cfg chat now).chat.death_at = some now
        ∧ (tick_stats cfg chat now).is_alive = false)
    ∧ ((tick_one_pet cfg chat hour now).is_alive = false →
        (tick_one_pet cfg chat hour now).evolved = false
        ∧ (tick_one_pet cfg chat hour now).chat
          = (tick_stats cfg (check_sleep_status cfg chat hour now) now).chat)
    ∧ ((tick_stats defaultConfig (newChat 1 0) 0).chat.hunger = 95
      ∧ (tick_stats defaultConfig (newChat 1 0) 0).chat.mood = 95
      ∧ (tick_stats defaultConfig (newChat 1 0) 0).chat.energy = 95
      ∧ (tick_stats defaultConfig (newChat 1 0) 0).chat.health = 100
      ∧ (tick_stats defaultConfig (newChat 1 0) 0).is_alive = true
      ∧ (tick_stats defaultConfig (newChat 1 0) 0).is_critical = false) := by
  obtain ⟨hp0, hp20⟩ := health_penalty_bounds cfg chat
  have ha : ¬(chat.is_alive = false) := by simp [halive]
  refine ⟨?_, ?_, ?_, by decide⟩
  · by_cases hdie : max 0 (chat.health - health_penalty cfg chat) ≤ 0
    · simp [tick_stats, ha, hdie, update_stats, kill_pet]
      refine ⟨?_, ?_, ?_, ?_⟩ <;> omega
    · simp [tick_stats, ha, hdie, update_stats, update_last_tick]
      refine ⟨?_, ?_, ?_, ?_⟩ <;> omega
  · intro hdie
    simp [tick_stats, ha, hdie, update_stats, kill_pet]
  · intro hdied
    simp only [tick_one_pet] at hdied ⊢
    split_ifs at hdied ⊢ with hcase
    exact ⟨rfl, rfl⟩

/-- Claim C4 witness: the decay equation of the tick instantiated at a
fresh pet with the default configuration. -/
theorem tick_stats_decay_witness :
    (tick_stats defaultConfig (newChat 1 0) 0).chat.hunger
      = max 0 ((newChat 1 0).hunger - defaultConfig.STAT_DECAY_PER_TICK) :=
  (tick_stats_decay defaultConfig (newChat 1 0) 12 0 (by decide) (by decide)
    (by decide) (by decide) (by decide) (by decide)).1.1

/-- An alive, sleeping pet at health 8. -/
def sleepingChat8 : Chat :=
  { newChat 4 0 with is_sleeping := true, health := 8 }

/-- Claim C1 counterexample: disturbing the alive sleeping pet at
health 8 drops health to max(0, 8-15) = 0, yet the pet does NOT become
dead: disturb_at_night never calls kill_pet, so is_alive stays true and
death_at stays unset. -/
theorem disturb_health8_stays_alive :
    sleepingChat8.is_alive = true
    ∧ sleepingChat8.is_sleeping = true
    ∧ sleepingChat8.health = 8
    ∧ (disturb_at_night sleepingChat8 1).chat.health = 0
    ∧ (disturb_at_night sleepingChat8 1).chat.is_alive = true
    ∧ (disturb_at_night sleepingChat8 1).chat.death_at = none := by
  decide

/-- Claim C1 (amended): a night disturbance on an alive sleeping pet
sets health to max(0, health-15) and mood to max(0, mood-20) but never
marks the pet dead (is_alive and death_at are untouched, even when
health reaches 0); only the decay tick marks the pet dead: whenever the
tick leaves health at 0, it has set alive = false and stamped death_at. -/
theorem disturbance_and_tick_mortality (chat : Chat) (now : Nat)
    (halive : chat.is_alive = true) :
    ((chat.is_sleeping = true ∧ 0 ≤ chat.health ∧ chat.health ≤ 100
        ∧ 0 ≤ chat.mood ∧ chat.mood ≤ 100) →
      ((disturb_at_night chat now).chat.health = max 0 (chat.health - 15)
        ∧ (disturb_at_night chat now).chat.mood = max 0 (chat.mood - 20)
        ∧ (disturb_at_night chat now).chat.is_alive = true
        ∧ (disturb_at_night chat now).chat.death_at = chat.death_at))
    ∧ (∀ cfg : Config, (tick_stats cfg chat now).chat.health = 0 →
        (tick_stats cfg chat now).chat.is_alive = false
        ∧ (tick_stats cfg chat now).chat.death_at = some now) := by
  constructor
  · rintro ⟨hs, h0, h100, hm0, hm100⟩
    have hns : ¬(chat.is_sleeping = false) := by simp [hs]
    simp [disturb_at_night, hns, update_stats, halive]
    constructor <;> omega
  · intro cfg hz
    have ha : ¬(chat.is_alive = false) := by simp [halive]
    by_cases hdie : max 0 (chat.health - health_penalty cfg chat) ≤ 0
    · simp [tick_stats, ha, hdie, update_stats, kill_pet]
    · exfalso
      obtain ⟨hp0, hp20⟩ := health_penalty_bounds cfg chat
      simp [tick_stats, ha, hdie, update_stats, update_last_tick] at hz
      omega

/-- Claim C1 witness: the disturbance clause instantiated at the alive
sleeping pet at health 8. -/
theorem disturbance_and_tick_mortality_witness :
    (disturb_at_night sleepingChat8 1).chat.health
        = max 0 (sleepingChat8.health - 15)
    ∧ (disturb_at_night sleepingChat8 1).chat.mood
        = max 0 (sleepingChat8.mood - 20)
    ∧ (disturb_at_night sleepingChat8 1).chat.is_alive = true
    ∧ (disturb_at_night sleepingChat8 1).chat.death_at
        = sleepingChat8.death_at :=
  (disturbance_and_tick_mortality sleepingChat8 1 (by decide)).1 (by decide)

/-- An alive, sleeping pet with hunger 50. -/
def sleepyChat : Chat :=
  { newChat 2 0 with is_sleeping := true, hunger := 50 }

/-- Claim C2 counterexample: a gamble attempted on the alive sleeping
pet is NOT handled as a night disturbance: cmd_gamble (which has no
sleeping check) offers the gamble, and the gamble callback applies its
normal hunger effect (50 - 30 = 20), leaves health at 100 (no -15),
emits GAMBLE_LOSS rather than NIGHT_DISTURB, and never bumps the
actor's disturb counter. -/
theorem gamble_ignores_sleeping :
    sleepyChat.is_alive = true
    ∧ sleepyChat.is_sleeping = true
    ∧ cmd_gamble sleepyChat = GambleReply.offer
    ∧ (callback_gamble_play sleepyChat actorUser false 1).chat.hunger = 20
    ∧ (callback_gamble_play sleepyChat actorUser false 1).chat.health = 100
    ∧ (callback_gamble_play sleepyChat actorUser false 1).events
        = [EvType.gambleLoss]
    ∧ (callback_gamble_play sleepyChat actorUser false 1).user.night_disturb_count
        = 0 := by
  decide

/-- Claim C2 (amended): feed and play attempted on an alive sleeping pet
are handled as a night disturbance — the normal effect is not applied
(hunger, energy, xp unchanged), health drops by 15 and mood by 20 (both
clamped at 0), the actor's disturb counter is bumped and NIGHT_DISTURB
is emitted; gamble, however, performs no sleeping check: cmd_gamble on
a sleeping pet with hunger ≥ 30 offers the gamble and the callback
applies its normal hunger effect with no disturbance. -/
theorem sleeping_feed_play_disturb (cfg : Config) (chat : Chat) (user : User)
    (now : Nat)
    (halive : chat.is_alive = true) (hsleep : chat.is_sleeping = true)
    (hhug : 0 ≤ chat.hunger ∧ chat.hunger ≤ 100)
    (hmood : 0 ≤ chat.mood ∧ chat.mood ≤ 100)
    (hheal : 0 ≤ chat.health ∧ chat.health ≤ 100) :
    ((cmd_feed cfg chat user now).chat.health = max 0 (chat.health - 15)
      ∧ (cmd_feed cfg chat user now).chat.mood = max 0 (chat.mood - 20)
      ∧ (cmd_feed cfg chat user now).chat.hunger = chat.hunger
      ∧ (cmd_feed cfg chat user now).chat.energy = chat.energy
      ∧ (cmd_feed cfg chat user now).chat.xp = chat.xp
      ∧ (cmd_feed cfg chat user now).user.night_disturb_count
          = user.night_disturb_count + 1
      ∧ (cmd_feed cfg chat user now).user.feed_count = user.feed_count
      ∧ (cmd_feed cfg chat user now).user.karma_points = user.karma_points
      ∧ (cmd_feed cfg chat user now).events = [EvType.nightDisturb]
      ∧ (cmd_feed cfg chat user now).outcome = HandlerOutcome.disturbed)
    ∧ ((cmd_play cfg chat user now).chat.health = max 0 (chat.health - 15)
      ∧ (cmd_play cfg chat user now).chat.mood = max 0 (chat.mood - 20)
      ∧ (cmd_play cfg chat user now).chat.hunger = chat.hunger
      ∧ (cmd_play cfg chat user now).chat.energy = chat.energy
      ∧ (cmd_play cfg chat user now).chat.xp = chat.xp
      ∧ (cmd_play cfg chat user now).user.night_disturb_count
          = user.night_disturb_count + 1
      ∧ (cmd_play cfg chat user now).user.play_count = user.play_count
      ∧ (cmd_play cfg chat user now).user.karma_points = user.karma_points
      ∧ (cmd_play cfg chat user now).events = [EvType.nightDisturb]
      ∧ (cmd_play cfg chat user now).outcome = HandlerOutcome.disturbed)
    ∧ (30 ≤ chat.hunger → cmd_gamble chat = GambleReply.offer)
    ∧ ((callback_gamble_play chat user false now).chat.hunger
        = max 0 (chat.hunger - 30)
      ∧ (callback_gamble_play chat user false now).chat.health = chat.health
      ∧ (callback_gamble_play chat user false now).events
          = [EvType.gambleLoss]) := by
  have hns : ¬(chat.is_sleeping = false) := by simp [hsleep]
  have ha : ¬(chat.is_alive = false) := by simp [halive]
  refine ⟨?_, ?_, ?_, ?_⟩
  · simp [cmd_feed, hsleep, disturb_at_night, hns, update_stats]
    constructor <;> omega
  · simp [cmd_play, hsleep, disturb_at_night, hns, update_stats]
    constructor <;> omega
  · intro hge
    have hlt : ¬(chat.hunger < 30) := by omega
    simp [cmd_gamble, ha, hlt]
  · simp [callback_gamble_play, ha, update_stats]
    omega

/-- Claim C2 witness: the feed clause instantiated at the alive sleeping
pet with hunger 50. -/
theorem sleeping_feed_play_disturb_witness :
    (cmd_feed defaultConfig sleepyChat actorUser 1).chat.health
      = max 0 (sleepyChat.health - 15) :=
  (sleeping_feed_play_disturb defaultConfig sleepyChat actorUser 1
    (by decide) (by decide) (by decide) (by decide) (by decide)).1.1

/-- A fresh alive, awake pet. -/
def awakeChat : Chat := newChat 6 0

/-- A draw record sitting exactly on the global gate: the first draw is
exactly 0.3 and the second is 0, with the choice falling on Box. -/
def rngBoundary : Rng :=
  { draw1 := 3 / 10
    choice := 0
    draw2 := 0
    box_outcome := 0
    visitor_outcome := 0
    weather_outcome := 0 }

/-- A draw record that passes both gates strictly. -/
def rngPass : Rng :=
  { draw1 := 0
    choice := 0
    draw2 := 0
    box_outcome := 0
    visitor_outcome := 0
    weather_outcome := 0 }

/-- Claim C7 counterexample: with the first draw exactly 0.3 — which is
not < 0.30 — the source gate `random.random() > 0.3` does not return
None, and the Box event still fires: events fire on draw ≤ gate, not
draw < gate. -/
theorem event_fires_at_gate_boundary :
    rngBoundary.draw1 = 3 / 10
    ∧ ¬(rngBoundary.draw1 < 3 / 10)
    ∧ (trigger_random_event awakeChat rngBoundary 1).1 = some EventKind.box := by
  have hg : ¬(awakeChat.is_alive = false ∨ awakeChat.is_sleeping = true) := by
    decide
  have hc : chosen_event rngBoundary.choice = EventKind.box := rfl
  have h1 : ¬(rngBoundary.draw1 > 3 / 10) := by
    show ¬((3 : ℚ) / 10 > 3 / 10)
    norm_num
  have h2 : ¬(rngBoundary.draw2 > event_probability EventKind.box) := by
    show ¬((0 : ℚ) > 1 / 5)
    norm_num
  refine ⟨rfl, by show ¬((3 : ℚ) / 10 < 3 / 10); norm_num, ?_⟩
  simp only [trigger_random_event, hc, if_neg hg, if_neg h1, if_neg h2]

/-- Claim C7 (amended): trigger_random_event returns none and changes no
state for every dead or sleeping pet; otherwise an event fires only when
the first uniform draw is ≤ 0.30 (the source tests `draw > 0.3` for
None), the kind is then the uniformly chosen one among Box, Visitor,
Weather, and the second draw must be ≤ the chosen kind's own probability
(Box 0.20, Visitor 0.15, Weather 0.25); if either gate fails, no event
fires and the pet is returned unchanged. -/
theorem trigger_random_event_gates (chat : Chat) (rng : Rng) (now : Nat) :
    ((chat.is_alive = false ∨ chat.is_sleeping = true) →
      trigger_random_event chat rng now = (none, chat))
    ∧ (rng.draw1 > 3 / 10 → trigger_random_event chat rng now = (none, chat))
    ∧ (rng.draw2 > event_probability (chosen_event rng.choice) →
      trigger_random_event chat rng now = (none, chat))
    ∧ ((trigger_random_event chat rng now).1 ≠ none →
      chat.is_alive = true ∧ chat.is_sleeping = false
      ∧ rng.draw1 ≤ 3 / 10
      ∧ rng.draw2 ≤ event_probability (chosen_event rng.choice)
      ∧ (trigger_random_event chat rng now).1 = some (chosen_event rng.choice))
    ∧ event_probability EventKind.box = 1 / 5
    ∧ event_probability EventKind.visitor = 3 / 20
    ∧ event_probability EventKind.weather = 1 / 4 := by
  refine ⟨?_, ?_, ?_, ?_, rfl, rfl, rfl⟩
  · intro hg
    unfold trigger_random_event
    rw [if_pos hg]
  · intro h1
    unfold trigger_random_event
    by_cases hg : chat.is_alive = false ∨ chat.is_sleeping = true
    · rw [if_pos hg]
    · rw [if_neg hg, if_pos h1]
  · intro h2
    unfold trigger_random_event
    by_cases hg : chat.is_alive = false ∨ chat.is_sleeping = true
    · rw [if_pos hg]
    · rw [if_neg hg]
      by_cases h1 : rng.draw1 > 3 / 10
      · rw [if_pos h1]
      · rw [if_neg h1]
        simp only [h2, if_true]
  · intro hne
    by_cases hg : chat.is_alive = false ∨ chat.is_sleeping = true
    · exfalso
      apply hne
      show (trigger_random_event chat rng now).1 = none
      unfold trigger_random_event
      rw [if_pos hg]
    · obtain ⟨ha, hs⟩ := not_or.mp hg
      have ha2 : chat.is_alive = true := by
        cases h : chat.is_alive
        · exact absurd h ha
        · rfl
      have hs2 : chat.is_sleeping = false := by
        cases h : chat.is_sleeping
        · rfl
        · exact absurd h hs
      by_cases h1 : rng.draw1 > 3 / 10
      · exfalso
        apply hne
        show (trigger_random_event chat rng now).1 = none
        unfold trigger_random_event
        rw [if_neg hg, if_pos h1]
      · by_cases h2 : rng.draw2 > event_probability (chosen_event rng.choice)
        · exfalso
          apply hne
          show (trigger_random_event chat rng now).1 = none
          unfold trigger_random_event
          rw [if_neg hg, if_neg h1]
          simp only [h2, if_true]
        · have h2b := h2
          refine ⟨ha2, hs2, not_lt.mp h1, not_lt.mp h2, ?_⟩
          unfold trigger_random_event
          rw [if_neg hg, if_neg h1]
          cases hk : chosen_event rng.choice <;>
            rw [hk] at h2b <;> simp [hk, h2b]

/-- Claim C7 witness: the firing clause instantiated at a fresh awake
pet and draws that pass both gates. -/
theorem trigger_random_event_gates_witness :
    awakeChat.is_alive = true ∧ awakeChat.is_sleeping = false
    ∧ rngPass.draw1 ≤ 3 / 10
    ∧ rngPass.draw2 ≤ event_probability (chosen_event rngPass.choice)
    ∧ (trigger_random_event awakeChat rngPass 1).1
        = some (chosen_event rngPass.choice) :=
  (trigger_random_event_gates awakeChat rngPass 1).2.2.2.1 (by
    have hg : ¬(awakeChat.is_alive = false ∨ awakeChat.is_sleeping = true) := by
      decide
    have hc : chosen_event rngPass.choice = EventKind.box := rfl
    have h1 : ¬(rngPass.draw1 > 3 / 10) := by
      show ¬((0 : ℚ) > 3 / 10)
      norm_num
    have h2 : ¬(rngPass.draw2 > event_probability EventKind.box) := by
      show ¬((0 : ℚ) > 1 / 5)
      norm_num
    simp only [trigger_random_event, hc, if_neg hg, if_neg h1, if_neg h2]
    simp)

end SocialBot
